import Mathlib

/-!
Shallow embedding of `src/scripts/diagnosticl_tool.py` (class `DiagnosticTool`):
the threshold rule `check_issue`, the issue summary `_summarize_issues`, the
escalation generator `suggest_escalations`, the registry operation
`add_hardware`, the store operation `log_diagnostic`, and the report query
construction of `generate_diagnostic_report`, together with the literal table
schemas and column lists the SQL statements name.

Modelling conventions:
- Python numbers are modelled as `Int` (the configured default thresholds and
  every example in the spec are integers; the rule uses only `>` and string
  rendering of the threshold value).
- Object-attribute plumbing (`self.conn` / `self._db`, `self.config` /
  `self._config`, the cursor) is abstracted into one explicit `Store` record
  threaded through each operation; each operation's own logic — comparisons,
  string literals, SQL column names, local-variable references, control flow —
  is embedded literally from the source.
- A Python exception is surfaced as a `PyError` value: `nameError nm` models a
  reference to the unbound local name `nm` (Python raises `NameError` at the
  point of reference, before any enclosing call runs), `attributeError a`
  models access to a missing attribute or method, `operationalError c` models
  an SQL statement naming a column `c` absent from the schema.
-/

set_option maxRecDepth 100000

namespace DiagnosticTool

/-- Python's substring test `needle in hay` on strings. -/
def strContains (hay needle : String) : Bool :=
  decide (needle.data <:+: hay.data)

/-- The three threshold bounds the rule compares against.  Field names follow
the configuration schema of `load_config` (source lines 28-32); `check_issue`
reads them through `self.config["diagnostic_threshold"][...]` lookups and the
embedding parameterizes the rule by the three bound values those lookups
denote. -/
structure Thresholds where
  max_temperature_celsius : Int
  max_cpu_usage_percentage : Int
  max_memory_usage_percentage : Int
deriving DecidableEq

/-- The default thresholds written by `load_config` (source lines 28-32). -/
def defaultThresholds : Thresholds := ⟨40, 90, 85⟩

/-- The clause appended for a breached temperature bound (source line 110). -/
def tempClause (cfg : Thresholds) : String :=
  "Temperature exceeds " ++ toString cfg.max_temperature_celsius ++ "°C"

/-- The clause appended for a breached CPU bound (source line 112). -/
def cpuClause (cfg : Thresholds) : String :=
  "CPU usage exceeds " ++ toString cfg.max_cpu_usage_percentage ++ "%"

/-- The clause appended for a breached memory bound (source line 114): the
source renders the unit as `MB`, not `%`. -/
def memClause (cfg : Thresholds) : String :=
  "Memory usage exceeds " ++ toString cfg.max_memory_usage_percentage ++ "MB"

/-- The list `issues` built by `check_issue` (source lines 108-114): one
clause per metric strictly above its bound, in Temperature/CPU/Memory
order. -/
def checkIssueList (cfg : Thresholds) (temperature cpu_usage memory_usage : Int) :
    List String :=
  (if temperature > cfg.max_temperature_celsius then [tempClause cfg] else []) ++
    (if cpu_usage > cfg.max_cpu_usage_percentage then [cpuClause cfg] else []) ++
      (if memory_usage > cfg.max_memory_usage_percentage then [memClause cfg] else [])

/-- `DiagnosticTool.check_issue` (source lines 106-115): the clauses joined
with `", "`, or the literal `"No issue detected"` when no clause was
appended.  Note the source's sentinel is singular (`"No issue detected"`). -/
def check_issue (cfg : Thresholds) (temperature cpu_usage memory_usage : Int) :
    String :=
  let issues := checkIssueList cfg temperature cpu_usage memory_usage
  if issues.isEmpty then "No issue detected" else String.intercalate ", " issues

/-- One row of the report's joined result set (source lines 119-120 select,
lines 130-140 shape): hardware columns followed by diagnostics columns. -/
structure ReportRow where
  serial_number : String
  type : String
  location : String
  technician : String
  timestamp : String
  temperature_celsius : Int
  cpu_usage_percent : Int
  memory_usage_percent : Int
  issue_detected : String
deriving DecidableEq

/-- The running counters of `_summarize_issues` (source line 148). -/
structure IssueSummary where
  temperatureCount : Nat
  cpuCount : Nat
  memoryCount : Nat
  noIssuesCount : Nat
deriving DecidableEq

/-- One pass of `_summarize_issues`'s loop body over a row's `issue_detected`
column (source lines 149-158): the three `in` tests may each increment, and
the bucket `"No issues"` increments only on exact equality with
`"No issues detected"`. -/
def summarizeStep (counts : IssueSummary) (issue : String) : IssueSummary :=
  let c1 := if strContains issue "Temperature" then
    { counts with temperatureCount := counts.temperatureCount + 1 } else counts
  let c2 := if strContains issue "CPU" then
    { c1 with cpuCount := c1.cpuCount + 1 } else c1
  let c3 := if strContains issue "Memory" then
    { c2 with memoryCount := c2.memoryCount + 1 } else c2
  if issue == "No issues detected" then
    { c3 with noIssuesCount := c3.noIssuesCount + 1 } else c3

/-- `DiagnosticTool._summarize_issues` (source lines 146-159), as a function
of the rows' `issue_detected` column (`row[8]`). -/
def summarize_issues (issues : List String) : IssueSummary :=
  issues.foldl summarizeStep ⟨0, 0, 0, 0⟩

/-- The escalation line formatted for one flagged diagnostic (source lines
168-169). -/
def escalationLine (d : ReportRow) : String :=
  "Escalate: Hardware " ++ d.serial_number ++ " (" ++ d.type ++ ") " ++
    "at " ++ d.location ++ " - Issue: " ++ d.issue_detected

/-- The accumulation loop inside `suggest_escalations` (source lines
164-170), as it would run over the report's fetched `diagnostics` rows:
append one escalation line for each row whose `issue_detected` differs from
`"No issues detected"`.  In the source this loop is dead code — line 163's
report call raises before it — so it is modelled separately from
`suggest_escalations` itself. -/
def suggestEscalationsLoop (diagnostics : List ReportRow) : List String :=
  diagnostics.foldl
    (fun acc d =>
      if d.issue_detected != "No issues detected" then acc ++ [escalationLine d]
      else acc)
    []

/-! ### The literal SQL surface

The column lists below are transcribed from the SQL strings in the source;
they let theorems compare what a statement names against what the schema
defines. -/

/-- Columns of the `hardware` table as created by `create_tables` (source
lines 45-52). -/
def hardwareTableColumns : List String :=
  ["id", "type", "serial_number", "location"]

/-- Columns of the `diagnostics` table as created by `create_tables` (source
lines 54-66); note the misspelt `cpu_usage_precent`. -/
def diagnosticsTableColumns : List String :=
  ["id", "hardware_id", "technician", "timestamp", "temperature_celsius",
    "cpu_usage_precent", "memory_usage_percent", "issue_detected"]

/-- The columns named by `log_diagnostic`'s `INSERT INTO diagnostics`
statement (source line 100). -/
def logDiagnosticInsertColumns : List String :=
  ["hardware_id", "technician", "temperature", "cpu_usage", "memory_usage",
    "issue"]

/-- The `diagnostics` columns referenced by the report's `SELECT` (source
lines 119-120, the `d.`-qualified names). -/
def reportSelectDiagnosticsColumns : List String :=
  ["technician", "timestamp", "temperature_celsius", "cpu_usage_percent",
    "memory_usage_percent", "issue_detected"]

/-- The methods defined on class `DiagnosticTool` (source lines 7-177). -/
def diagnosticToolMethods : List String :=
  ["__init__", "log_activity", "load_config", "create_tables", "add_hardware",
    "log_diagnostic", "check_issue", "generate_diagnostic_report",
    "_summarize_issues", "suggest_escalations", "__del__"]

/-- The local names bound in `log_diagnostic`'s not-found branch when line 95
runs: the five parameters plus `self`, line 92's `hardware_id` and line 94's
`error_message`.  Line 95 interpolates `error_msg`, which is not among
them. -/
def logDiagnosticNotFoundLocals : List String :=
  ["self", "serial_number", "technician", "temperature", "cpu_usage",
    "memory_usage", "hardware_id", "error_message"]

/-- The local names bound in `add_hardware` when its failure-log lines 75 and
86 run: the four parameters plus `self` and the `error_message` bound on the
line before each.  Both failure logs interpolate `error_msg`, which is not
among them. -/
def addHardwareFailureLocals : List String :=
  ["self", "hardware_type", "serial_number", "location", "technician",
    "error_message"]

/-! ### The stateful operations -/

/-- A row of the `hardware` table. -/
structure HardwareRow where
  id : Nat
  type : String
  serial_number : String
  location : String
deriving DecidableEq

/-- An entry appended to the activity log by `log_activity` (actor and
message; the wall-clock timestamp prefix is abstracted). -/
structure LogEntry where
  actor : String
  message : String
deriving DecidableEq

/-- The explicit state threaded through the operations: the two tables, the
activity log, and the configured hardware-type set. -/
structure Store where
  hardware : List HardwareRow
  diagnosticsCount : Nat
  activityLog : List LogEntry
  hardware_types : List String
deriving DecidableEq

/-- A raised Python exception, as the operations surface it. -/
inductive PyError where
  /-- `raise ValueError(msg)` -/
  | valueError (msg : String)
  /-- a reference to the unbound local name `nm` -/
  | nameError (nm : String)
  /-- access to a missing attribute or method -/
  | attributeError (attr : String)
  /-- an SQL statement naming a column absent from the schema -/
  | operationalError (column : String)
deriving DecidableEq

/-- The `AUTOINCREMENT` primary key for the next `hardware` row. -/
def nextHardwareId (s : Store) : Nat :=
  (s.hardware.foldl (fun m h => max m h.id) 0) + 1

/-- `DiagnosticTool.add_hardware` (source lines 71-87), returning the
resulting store and the raised exception, if any.
- Unsupported type (line 73): line 74 binds `error_message`, but line 75's
  failure log interpolates the unbound name `error_msg`, so a `NameError`
  is raised there — before `log_activity` appends anything and before any
  insert.
- Duplicate serial (lines 77-87): the `INSERT` violates the `UNIQUE`
  constraint and raises `IntegrityError`, which line 84 catches; line 86's
  failure log again interpolates the unbound `error_msg`, raising
  `NameError` with no row inserted and nothing logged.
- Otherwise the row is inserted, committed, and the success event logged
  (line 83). -/
def add_hardware (s : Store) (hardware_type serial_number location technician : String) :
    Store × Option PyError :=
  if s.hardware_types.contains hardware_type then
    if (s.hardware.filter (fun h => h.serial_number == serial_number)).isEmpty then
      ({ s with
          hardware := s.hardware ++
            [⟨nextHardwareId s, hardware_type, serial_number, location⟩],
          activityLog := s.activityLog ++
            [⟨technician,
              "Added hardware: " ++ hardware_type ++ ", Serial: " ++
                serial_number ++ ", Location: " ++ location⟩] },
        none)
    else (s, some (PyError.nameError "error_msg"))
  else (s, some (PyError.nameError "error_msg"))

/-- `DiagnosticTool.log_diagnostic` (source lines 89-104), returning the
resulting store and the raised exception, if any.
- Unknown serial (lines 93-96): line 94 binds `error_message`, but line 95's
  failure log interpolates the unbound name `error_msg`, so a `NameError` is
  raised there — before `log_activity` appends anything and before any
  insert.
- Known serial (line 98): the method calls `self.check_issues`, but the class
  defines `check_issue` (`"check_issues" ∉ diagnosticToolMethods`), so an
  `AttributeError` is raised before the `INSERT` of lines 99-102 runs; no
  row is inserted and nothing is logged.  (Had the call resolved, the
  `INSERT` itself names columns `temperature`, `cpu_usage`, `memory_usage`,
  `issue` absent from the `diagnostics` schema, and supplies no
  `timestamp`.) -/
def log_diagnostic (s : Store) (serial_number technician : String)
    (temperature cpu_usage memory_usage : Int) : Store × Option PyError :=
  match s.hardware.find? (fun h => h.serial_number == serial_number) with
  | none => (s, some (PyError.nameError "error_msg"))
  | some _ =>
    let _ := (technician, temperature, cpu_usage, memory_usage)
    (s, some (PyError.attributeError "check_issues"))

/-! ### The report query construction -/

/-- Python truthiness of the optional `serial_number` argument: `None` and
the empty string are falsy (source line 122's `if serial_number:`). -/
def serialTruthy : Option String → Bool
  | none => false
  | some s => !(s == "")

/-- The base `SELECT` of `generate_diagnostic_report` (source lines
119-120). -/
def reportBaseQuery : String :=
  "SELECT h.serial_number, h.type, h.location, d.technician, d.timestamp, " ++
    "d.temperature_celsius, d.cpu_usage_percent, d.memory_usage_percent, " ++
    "d.issue_detected FROM hardware as h JOIN diagnostics as d ON h.id = d.hardware_id"

/-- The query string and parameter list built by `generate_diagnostic_report`
(source lines 119-125): the `WHERE` clause and the parameter are added only
when `serial_number` is truthy. -/
def reportQuery (serial_number : Option String) : String × List String :=
  if serialTruthy serial_number then
    (reportBaseQuery ++ " WHERE h.serial_number =?", [serial_number.getD ""])
  else (reportBaseQuery, [])

/-- The scope named by the report's summary log event (source line 144):
`'all hardware' if not serial_number else f'Serial: {serial_number}'`. -/
def reportLogScope (serial_number : Option String) : String :=
  if !(serialTruthy serial_number) then "all hardware"
  else "Serial: " ++ serial_number.getD ""

/-- `DiagnosticTool.generate_diagnostic_report` (source lines 117-145).
Lines 119-124 build the query and parameters (`reportQuery`); line 125
executes it.  Execution resolves the `SELECT`'s `d.`-qualified columns
against the `diagnostics` schema, and that resolution fails — the guard
below, decided from the transcribed column lists, is false because the
query names `cpu_usage_percent` while the table defines `cpu_usage_precent`
— so sqlite raises `OperationalError` before any row is fetched: nothing is
returned and the summary log event of line 144 is never appended.  The
success branch is dead code against this schema. -/
def generate_diagnostic_report (s : Store) (serial_number : Option String)
    (technician : String) : Store × Option PyError :=
  let _ := (reportQuery serial_number, technician)
  if reportSelectDiagnosticsColumns.all (fun c => diagnosticsTableColumns.contains c) then
    (s, none)
  else (s, some (PyError.operationalError "cpu_usage_percent"))

/-- `DiagnosticTool.suggest_escalations` (source lines 161-172).  Line 163
first calls `generate_diagnostic_report` with all-hardware scope; the
`OperationalError` that call raises propagates out of `suggest_escalations`,
so the accumulation loop of lines 164-170 (`suggestEscalationsLoop`) and the
count log of line 171 never run and no escalation list is ever returned. -/
def suggest_escalations (s : Store) (technician : String) :
    Store × Except PyError (List String) :=
  match generate_diagnostic_report s none technician with
  | (s2, some e) => (s2, Except.error e)
  -- dead against this schema: the report call always raises, so the loop
  -- over its rows never contributes
  | (s2, none) => (s2, Except.ok [])

/-! ### Helper lemmas -/

/-- Two lists with distinct head characters stay distinct under appends. -/
lemma head_ne_aux {c d : Char} {l1 l2 x1 y1 x2 y2 : List Char}
    (hcd : c ≠ d) : ((c :: l1) ++ x1) ++ y1 ≠ ((d :: l2) ++ x2) ++ y2 := by
  intro h
  rw [List.cons_append, List.cons_append, List.cons_append, List.cons_append] at h
  exact hcd (List.head_eq_of_cons_eq h)

/-- The temperature clause never coincides with a CPU clause: their first
characters differ. -/
lemma tempClause_ne_cpuClause (cfg cfg' : Thresholds) :
    tempClause cfg ≠ cpuClause cfg' := by
  intro h
  have h2 := congrArg String.data h
  rw [tempClause, cpuClause, String.data_append, String.data_append,
    String.data_append, String.data_append] at h2
  have e1 : "Temperature exceeds ".data = 'T' :: "emperature exceeds ".data := by decide
  have e2 : "CPU usage exceeds ".data = 'C' :: "PU usage exceeds ".data := by decide
  rw [e1, e2] at h2
  exact head_ne_aux (by decide) h2

/-- The temperature clause never coincides with a memory clause. -/
lemma tempClause_ne_memClause (cfg cfg' : Thresholds) :
    tempClause cfg ≠ memClause cfg' := by
  intro h
  have h2 := congrArg String.data h
  rw [tempClause, memClause, String.data_append, String.data_append,
    String.data_append, String.data_append] at h2
  have e1 : "Temperature exceeds ".data = 'T' :: "emperature exceeds ".data := by decide
  have e2 : "Memory usage exceeds ".data = 'M' :: "emory usage exceeds ".data := by decide
  rw [e1, e2] at h2
  exact head_ne_aux (by decide) h2

/-- The CPU clause never coincides with a memory clause. -/
lemma cpuClause_ne_memClause (cfg cfg' : Thresholds) :
    cpuClause cfg ≠ memClause cfg' := by
  intro h
  have h2 := congrArg String.data h
  rw [cpuClause, memClause, String.data_append, String.data_append,
    String.data_append, String.data_append] at h2
  have e1 : "CPU usage exceeds ".data = 'C' :: "PU usage exceeds ".data := by decide
  have e2 : "Memory usage exceeds ".data = 'M' :: "emory usage exceeds ".data := by decide
  rw [e1, e2] at h2
  exact head_ne_aux (by decide) h2

/-- One step of `summarizeStep`, written componentwise. -/
lemma summarizeStep_eq (acc : IssueSummary) (i : String) :
    summarizeStep acc i =
      ⟨acc.temperatureCount + (if strContains i "Temperature" then 1 else 0),
        acc.cpuCount + (if strContains i "CPU" then 1 else 0),
        acc.memoryCount + (if strContains i "Memory" then 1 else 0),
        acc.noIssuesCount + (if i == "No issues detected" then 1 else 0)⟩ := by
  unfold summarizeStep
  by_cases h1 : strContains i "Temperature" = true <;>
  by_cases h2 : strContains i "CPU" = true <;>
  by_cases h3 : strContains i "Memory" = true <;>
  by_cases h4 : (i == "No issues detected") = true <;>
  simp [h1, h2, h3, h4]

/-- The summariser's loop, as running counts over the remaining rows. -/
lemma summarize_foldl (issues : List String) (acc : IssueSummary) :
    issues.foldl summarizeStep acc =
      ⟨acc.temperatureCount + issues.countP (fun i => strContains i "Temperature"),
        acc.cpuCount + issues.countP (fun i => strContains i "CPU"),
        acc.memoryCount + issues.countP (fun i => strContains i "Memory"),
        acc.noIssuesCount + issues.countP (fun i => i == "No issues detected")⟩ := by
  induction issues generalizing acc with
  | nil => simp
  | cons i rest ih =>
    rw [List.foldl_cons, summarizeStep_eq, ih]
    simp only [List.countP_cons, IssueSummary.mk.injEq]
    omega

/-- `_summarize_issues` counts, per bucket, the rows whose classification
passes that bucket's test: substring containment for the three metrics,
exact equality with `"No issues detected"` for the clean bucket. -/
lemma summarize_issues_counts (issues : List String) :
    summarize_issues issues =
      ⟨issues.countP (fun i => strContains i "Temperature"),
        issues.countP (fun i => strContains i "CPU"),
        issues.countP (fun i => strContains i "Memory"),
        issues.countP (fun i => i == "No issues detected")⟩ := by
  simpa using summarize_foldl issues ⟨0, 0, 0, 0⟩

/-- The escalation loop with an arbitrary accumulator. -/
lemma suggest_escalations_loop (rows : List ReportRow) (acc : List String) :
    rows.foldl
        (fun acc d =>
          if d.issue_detected != "No issues detected" then acc ++ [escalationLine d]
          else acc)
        acc =
      acc ++ (rows.filter
        (fun d => d.issue_detected != "No issues detected")).map escalationLine := by
  induction rows generalizing acc with
  | nil => simp
  | cons d rest ih =>
    rw [List.foldl_cons, List.filter_cons]
    by_cases h : d.issue_detected = "No issues detected"
    · simpa [h] using ih acc
    · simpa [h, List.append_assoc] using ih (acc ++ [escalationLine d])

/-- A fixture store: one registered `Server` with serial `SN1`, no
diagnostics, an empty activity log, and the default hardware-type set. -/
def sampleStore : Store :=
  { hardware := [⟨1, "Server", "SN1", "Rack 1A"⟩],
    diagnosticsCount := 0,
    activityLog := [],
    hardware_types := ["Server", "Switch", "Storage", "Disk"] }

/-! ### The claims -/

/-- C1: the claim's clause texts and sentinel fail on the code.  At the
default thresholds `(40, 90, 85)`, a clean reading `(20, 10, 10)` classifies
as the singular `"No issue detected"`, not the claimed sentinel
`"No issues detected"`, and the memory clause for reading `(30, 50, 86)`
renders the unit as `MB`, not the claimed `%`; the temperature and CPU
clauses do match the claimed texts. -/
theorem check_issue_sentinel_and_memory_unit :
    check_issue defaultThresholds 20 10 10 = "No issue detected" ∧
    "No issue detected" ≠ "No issues detected" ∧
    check_issue defaultThresholds 30 50 86 = "Memory usage exceeds 85MB" ∧
    check_issue defaultThresholds 41 50 50 = "Temperature exceeds 40°C" ∧
    check_issue defaultThresholds 30 91 50 = "CPU usage exceeds 90%" := by
  exact ⟨by decide, by decide, by decide, by decide, by decide⟩

/-- C2: each metric's clause appears in `check_issue`'s clause list exactly
when that metric's value is strictly greater than its configured bound; each
metric is tested independently of the other two, for every reading and every
thresholds triple. -/
theorem check_issue_flags_iff_strictly_above (cfg : Thresholds) (t c m : Int) :
    (tempClause cfg ∈ checkIssueList cfg t c m ↔ t > cfg.max_temperature_celsius) ∧
    (cpuClause cfg ∈ checkIssueList cfg t c m ↔ c > cfg.max_cpu_usage_percentage) ∧
    (memClause cfg ∈ checkIssueList cfg t c m ↔ m > cfg.max_memory_usage_percentage) := by
  unfold checkIssueList
  by_cases h1 : t > cfg.max_temperature_celsius <;>
  by_cases h2 : c > cfg.max_cpu_usage_percentage <;>
  by_cases h3 : m > cfg.max_memory_usage_percentage <;>
  simp [h1, h2, h3, tempClause_ne_cpuClause cfg cfg, tempClause_ne_memClause cfg cfg,
    cpuClause_ne_memClause cfg cfg, Ne.symm (tempClause_ne_cpuClause cfg cfg),
    Ne.symm (tempClause_ne_memClause cfg cfg), Ne.symm (cpuClause_ne_memClause cfg cfg)]

/-- C3: the claimed example fails on the code.  A device with two
temperature-exceeding readings and one clean reading, classified by
`check_issue` at the default thresholds, summarizes to `Temperature: 2` but
`No issues: 0`, not the claimed `No issues: 1`: the stored clean
classification `"No issue detected"` differs from the sentinel
`"No issues detected"` that `_summarize_issues` counts. -/
theorem issue_summary_sentinel_mismatch :
    summarize_issues
        [check_issue defaultThresholds 41 50 50,
          check_issue defaultThresholds 41 50 50,
          check_issue defaultThresholds 20 10 10] =
      ⟨2, 0, 0, 0⟩ ∧
    (⟨2, 0, 0, 0⟩ : IssueSummary).noIssuesCount ≠ 1 := by
  exact ⟨by decide, by decide⟩

/-- The dead accumulation loop, characterized: had the report's rows been
fetched, the loop would return exactly the escalation line of each row whose
classification differs from the no-issue sentinel, in row order. -/
lemma suggestEscalationsLoop_filters_non_sentinel (rows : List ReportRow) :
    suggestEscalationsLoop rows =
      (rows.filter
        (fun d => d.issue_detected != "No issues detected")).map escalationLine ∧
    (suggestEscalationsLoop rows).length =
      rows.countP (fun d => d.issue_detected != "No issues detected") := by
  have h := suggest_escalations_loop rows []
  refine ⟨h, ?_⟩
  rw [suggestEscalationsLoop, h]
  simp [List.countP_eq_length_filter]

/-- C4: the claim fails on the code: `suggest_escalations` never returns a
sequence at all.  Its first step (line 163) calls
`generate_diagnostic_report`, whose `SELECT` references the column
`cpu_usage_percent` absent from the `diagnostics` schema, so
`OperationalError` propagates out of every call — here on the fixture store,
which has no diagnostics at all, exactly where the claim requires an empty
sequence rather than a failure. -/
theorem suggest_escalations_raises_via_report :
    suggest_escalations sampleStore "System" =
      (sampleStore, Except.error (PyError.operationalError "cpu_usage_percent")) ∧
    sampleStore.diagnosticsCount = 0 ∧
    "cpu_usage_percent" ∉ diagnosticsTableColumns := by
  exact ⟨rfl, rfl, by decide⟩

/-- C5: the success path of `log_diagnostic` is broken.  On the fixture
store, logging against the existing serial `SN1` raises `AttributeError`
(the call names `check_issues`, which is not a method of the class) and
leaves the store unchanged; moreover the `INSERT` itself names a column
`temperature` absent from the `diagnostics` schema and supplies no
`timestamp` at all. -/
theorem log_diagnostic_success_path_defects :
    log_diagnostic sampleStore "SN1" "bob" 20 10 10 =
      (sampleStore, some (PyError.attributeError "check_issues")) ∧
    "check_issues" ∉ diagnosticToolMethods ∧
    "timestamp" ∉ logDiagnosticInsertColumns ∧
    "temperature" ∈ logDiagnosticInsertColumns ∧
    "temperature" ∉ diagnosticsTableColumns := by
  exact ⟨rfl, by decide, by decide, by decide, by decide⟩

/-- C6: `log_diagnostic` against the unknown serial `GHOST` raises a
`NameError` on the unbound local `error_msg` (line 94 binds
`error_message`), so the failure is never logged and the raised error is not
the claimed `HardwareNotFound`; the store — in particular the diagnostics
table — is unchanged. -/
theorem log_diagnostic_unknown_serial_name_error :
    log_diagnostic sampleStore "GHOST" "bob" 20 10 10 =
      (sampleStore, some (PyError.nameError "error_msg")) ∧
    "error_msg" ∉ logDiagnosticNotFoundLocals := by
  exact ⟨rfl, by decide⟩

/-- C7: `add_hardware` with the unsupported type `Router` raises a
`NameError` on the unbound local `error_msg` (line 74 binds
`error_message`), so the failure is never logged and the raised error is not
the claimed `InvalidHardwareType`; no hardware row is created (the store is
returned unchanged). -/
theorem add_hardware_invalid_type_name_error :
    add_hardware sampleStore "Router" "SN9" "Rack 2B" "alice" =
      (sampleStore, some (PyError.nameError "error_msg")) ∧
    "Router" ∉ sampleStore.hardware_types ∧
    "error_msg" ∉ addHardwareFailureLocals := by
  exact ⟨rfl, by decide, by decide⟩

/-- C8: `add_hardware` with the already-registered serial `SN1` raises a
`NameError` on the unbound local `error_msg` in the `IntegrityError` handler
(line 85 binds `error_message`), so the failure is never logged and the
raised error is not the claimed `DuplicateSerialNumber`; the hardware count
is unchanged. -/
theorem add_hardware_duplicate_serial_name_error :
    add_hardware sampleStore "Switch" "SN1" "Rack 2B" "alice" =
      (sampleStore, some (PyError.nameError "error_msg")) ∧
    (add_hardware sampleStore "Switch" "SN1" "Rack 2B" "alice").1.hardware.length =
      sampleStore.hardware.length := by
  exact ⟨rfl, rfl⟩

/-- C9: `generate_diagnostic_report`'s `SELECT` references the diagnostics
column `cpu_usage_percent`, but `create_tables` defines that column as
`cpu_usage_precent`, so the query names a column absent from the schema and
every call fails instead of returning a report. -/
theorem report_select_missing_column :
    "cpu_usage_percent" ∈ reportSelectDiagnosticsColumns ∧
    "cpu_usage_percent" ∉ diagnosticsTableColumns ∧
    "cpu_usage_precent" ∈ diagnosticsTableColumns ∧
    strContains reportBaseQuery "d.cpu_usage_percent" = true := by
  exact ⟨by decide, by decide, by decide, by decide⟩

/-- C10: passing the empty string as `serial_number` builds exactly the
query, parameter list, and log-scope text of the all-hardware report: the
scoping test is Python truthiness, under which `""` and `None` coincide. -/
theorem report_empty_serial_is_all_scope :
    reportQuery (some "") = reportQuery none ∧
    reportQuery (some "") = (reportBaseQuery, []) ∧
    reportLogScope (some "") = "all hardware" ∧
    reportLogScope none = "all hardware" := by
  exact ⟨rfl, rfl, rfl, rfl⟩

end DiagnosticTool
